import Mathlib

/-
  Verification development for the advection-diffusion-reaction notebook
  (src/notebooks/advection-diffusion-reaction.py).

  The notebook builds symbolic variational forms and hands them to an
  external finite-element library.  We embed the symbolic layer shallowly:
  UFL form expressions become an inductive AST transcribed term by term
  from the source; the NavierStokesSolver class becomes an explicit event
  trace plus a state-passing transition function; the time-stepping loop
  becomes a map over List.range num_steps.  Numeric literals are modelled
  as exact rationals, which is faithful here because every claim compares
  them symbolically.
-/

namespace ADR

/-- Named external objects of the script: finite-element functions, test
functions, trial functions, spatial coordinates and the facet normal. -/
inductive Atom where
  | w          -- velocity field copied from the Navier-Stokes solver
  | u_1 | u_2 | u_3        -- components of the unknown concentration u
  | u_n1 | u_n2 | u_n3     -- components of the previous-step concentration
  | v_1 | v_2 | v_3        -- test functions of the mixed space V
  | uTrial | pTrial        -- TrialFunction(self.V), TrialFunction(self.Q)
  | u_k | u_ | p_k | p_    -- solver fields at previous / current step
  | vTest | qTest          -- TestFunction(self.V), TestFunction(self.Q)
  | normal                 -- FacetNormal(mesh)
  | x0 | x1                -- spatial coordinates x[0], x[1]
  deriving DecidableEq, Repr

/-- Integration measures appearing in the forms. -/
inductive Measure where
  | dx | ds
  deriving DecidableEq, Repr

/-- Symbolic UFL expressions, one constructor per operator used by the
script.  A Constant object is carried as its rational value. -/
inductive Expr where
  | atom : Atom → Expr
  | lit : ℚ → Expr                   -- numeric literal or scalar Constant
  | vecLit : ℚ → ℚ → Expr            -- Constant((a, b))
  | add : Expr → Expr → Expr
  | sub : Expr → Expr → Expr
  | mul : Expr → Expr → Expr
  | div : Expr → Expr → Expr
  | neg : Expr → Expr
  | dot : Expr → Expr → Expr
  | inner : Expr → Expr → Expr
  | grad : Expr → Expr
  | nabla_grad : Expr → Expr
  | diver : Expr → Expr              -- div(u), divergence
  | sym : Expr → Expr
  | ident : ℕ → Expr                 -- Identity(n)
  | pow : Expr → Expr → Expr
  | condLt : Expr → Expr → Expr → Expr → Expr
      -- condLt a b t e models the C ternary (a < b ? t : e)
  | integral : Expr → Measure → Expr -- expr*dx or expr*ds
  deriving DecidableEq, Repr

open Atom Measure

/-- T = 0.5, the final time. -/
def Tval : ℚ := 1/2

/-- num_steps = 500. -/
def num_steps : ℕ := 500

/-- dt = T / num_steps, the time-step size. -/
def dt : ℚ := Tval / (num_steps : ℚ)

/-- eps = Constant(0.01), the diffusion coefficient. -/
def epsVal : ℚ := 1/100

/-- K = Constant(10.0), the reaction rate. -/
def KVal : ℚ := 10

/-- The value stored in the Constant object bound to the name k before
the time loop: Constant(dt). -/
def kConstVal : ℚ := dt

/-- The source Expression for f_1:
pow(x[0]-0.1,2)+pow(x[1]-0.1,2) < 0.05*0.05 ? 0.1 : 0. -/
def f_1Expr : Expr :=
  .condLt
    (.add (.pow (.sub (.atom x0) (.lit (1/10))) (.lit 2))
          (.pow (.sub (.atom x1) (.lit (1/10))) (.lit 2)))
    (.mul (.lit (1/20)) (.lit (1/20)))
    (.lit (1/10)) (.lit 0)

/-- The source Expression for f_2:
pow(x[0]-0.1,2)+pow(x[1]-0.3,2) < 0.05*0.05 ? 0.1 : 0. -/
def f_2Expr : Expr :=
  .condLt
    (.add (.pow (.sub (.atom x0) (.lit (1/10))) (.lit 2))
          (.pow (.sub (.atom x1) (.lit (3/10))) (.lit 2)))
    (.mul (.lit (1/20)) (.lit (1/20)))
    (.lit (1/10)) (.lit 0)

/-- f_3 = Constant(0). -/
def f_3Expr : Expr := .lit 0

/-- The residual F of the reaction system, built with the time-step
Constant value c in place of the captured Constant k.  The sixteen terms
and the left association follow source lines 273-279 exactly:
t1..t4 the u_1 equation, t5..t8 the u_2 equation, t9..t13 the u_3
equation, t14..t16 the subtracted source terms. -/
def buildF (c : ℚ) : Expr :=
  let t1 : Expr :=
    .integral (.mul (.div (.sub (.atom u_1) (.atom u_n1)) (.lit c)) (.atom v_1)) dx
  let t2 : Expr :=
    .integral (.mul (.dot (.atom w) (.grad (.atom u_1))) (.atom v_1)) dx
  let t3 : Expr :=
    .integral (.mul (.lit epsVal) (.dot (.grad (.atom u_1)) (.grad (.atom v_1)))) dx
  let t4 : Expr :=
    .integral (.mul (.mul (.mul (.lit KVal) (.atom u_1)) (.atom u_2)) (.atom v_1)) dx
  let t5 : Expr :=
    .integral (.mul (.div (.sub (.atom u_2) (.atom u_n2)) (.lit c)) (.atom v_2)) dx
  let t6 : Expr :=
    .integral (.mul (.dot (.atom w) (.grad (.atom u_2))) (.atom v_2)) dx
  let t7 : Expr :=
    .integral (.mul (.lit epsVal) (.dot (.grad (.atom u_2)) (.grad (.atom v_2)))) dx
  let t8 : Expr :=
    .integral (.mul (.mul (.mul (.lit KVal) (.atom u_1)) (.atom u_2)) (.atom v_2)) dx
  let t9 : Expr :=
    .integral (.mul (.div (.sub (.atom u_3) (.atom u_n3)) (.lit c)) (.atom v_3)) dx
  let t10 : Expr :=
    .integral (.mul (.dot (.atom w) (.grad (.atom u_3))) (.atom v_3)) dx
  let t11 : Expr :=
    .integral (.mul (.lit epsVal) (.dot (.grad (.atom u_3)) (.grad (.atom v_3)))) dx
  let t12 : Expr :=
    .integral (.mul (.mul (.mul (.lit KVal) (.atom u_1)) (.atom u_2)) (.atom v_3)) dx
  let t13 : Expr :=
    .integral (.mul (.mul (.lit KVal) (.atom u_3)) (.atom v_3)) dx
  let t14 : Expr := .integral (.mul f_1Expr (.atom v_1)) dx
  let t15 : Expr := .integral (.mul f_2Expr (.atom v_2)) dx
  let t16 : Expr := .integral (.mul f_3Expr (.atom v_3)) dx
  .sub (.sub (.sub (.add (.sub
    (.add (.add (.add (.add (.add (.add (.add (.add (.add (.add
      t1 t2) t3) t4) t5) t6) t7) t8) t9) t10) t11)
    t12) t13) t14) t15) t16

/-- The residual F as constructed once before the loop, capturing the
Constant k whose value is dt. -/
def F : Expr := buildF kConstVal

/-- Flatten a sum of terms, pushing subtraction to negated terms; used to
compare forms term by term independently of association. -/
def flat : Expr → List Expr
  | .add a b => flat a ++ flat b
  | .sub a b => flat a ++ (flat b).map Expr.neg
  | e => [e]

/-- Does the atom a occur anywhere in the expression? -/
def occursA (a : Atom) : Expr → Bool
  | .atom b => a == b
  | .lit _ => false
  | .vecLit _ _ => false
  | .ident _ => false
  | .add x y => occursA a x || occursA a y
  | .sub x y => occursA a x || occursA a y
  | .mul x y => occursA a x || occursA a y
  | .div x y => occursA a x || occursA a y
  | .dot x y => occursA a x || occursA a y
  | .inner x y => occursA a x || occursA a y
  | .pow x y => occursA a x || occursA a y
  | .neg x => occursA a x
  | .grad x => occursA a x
  | .nabla_grad x => occursA a x
  | .diver x => occursA a x
  | .sym x => occursA a x
  | .condLt p q x y => occursA a p || occursA a q || occursA a x || occursA a y
  | .integral x _ => occursA a x

/-- An upper bound on the polynomial degree of the expression in the atom
a (products add degrees, sums take the maximum); degIn a e = 0 means a
does not influence e, degIn a e ≤ 1 means e is affine in a. -/
def degIn (a : Atom) : Expr → ℕ
  | .atom b => if a == b then 1 else 0
  | .lit _ => 0
  | .vecLit _ _ => 0
  | .ident _ => 0
  | .add x y => max (degIn a x) (degIn a y)
  | .sub x y => max (degIn a x) (degIn a y)
  | .mul x y => degIn a x + degIn a y
  | .div x y => degIn a x + degIn a y
  | .dot x y => degIn a x + degIn a y
  | .inner x y => degIn a x + degIn a y
  | .pow x y => degIn a x + degIn a y
  | .neg x => degIn a x
  | .grad x => degIn a x
  | .nabla_grad x => degIn a x
  | .diver x => degIn a x
  | .sym x => degIn a x
  | .condLt p q x y => max (max (degIn a p) (degIn a q)) (max (degIn a x) (degIn a y))
  | .integral x _ => degIn a x

/-! ## The NavierStokesSolver class -/

/-- mu = Constant(0.001), the dynamic viscosity. -/
def muVal : ℚ := 1/1000

/-- rho = 1, the density (a plain Python integer). -/
def rhoVal : ℚ := 1

/-- epsilon(u) = sym(nabla_grad(u)), the symmetric gradient. -/
def epsilonFn (u : Expr) : Expr := .sym (.nabla_grad u)

/-- sigma(u, p) = 2*mu*epsilon(u) - p*Identity(len(u)), the stress
tensor; len(u) = 2 for the planar velocity. -/
def sigmaFn (u p : Expr) : Expr :=
  .sub (.mul (.mul (.lit 2) (.lit muVal)) (epsilonFn u)) (.mul p (.ident 2))

/-- u_mid = 0.5*(u_k + u), the Crank-Nicolson average of the previous
velocity and the unknown trial velocity. -/
def u_midE : Expr := .mul (.lit (1/2)) (.add (.atom u_k) (.atom uTrial))

/-- The variational form F1 for step 1, built with the value c of the
Constant self.DT, transcribed from source lines 348-352 with its six
terms in order:  rho*dot((u - u_k)/DT, v)*dx
+ rho*dot(dot(u_k, nabla_grad(u_k)), v)*dx
+ inner(sigma(u_mid, p_k), epsilon(v))*dx
+ dot(p_k*n, v)*ds - dot(mu*nabla_grad(u_mid)*n, v)*ds - dot(f, v)*dx. -/
def buildF1 (c : ℚ) : Expr :=
  let s1 : Expr :=
    .integral (.mul (.lit rhoVal)
      (.dot (.div (.sub (.atom uTrial) (.atom u_k)) (.lit c)) (.atom vTest))) dx
  let s2 : Expr :=
    .integral (.mul (.lit rhoVal)
      (.dot (.dot (.atom u_k) (.nabla_grad (.atom u_k))) (.atom vTest))) dx
  let s3 : Expr :=
    .integral (.inner (sigmaFn u_midE (.atom p_k)) (epsilonFn (.atom vTest))) dx
  let s4 : Expr :=
    .integral (.dot (.mul (.atom p_k) (.atom normal)) (.atom vTest)) ds
  let s5 : Expr :=
    .integral (.dot (.mul (.mul (.lit muVal) (.nabla_grad u_midE)) (.atom normal))
      (.atom vTest)) ds
  let s6 : Expr := .integral (.dot (.vecLit 0 0) (.atom vTest)) dx
  .sub (.sub (.add (.add (.add s1 s2) s3) s4) s5) s6

/-- self.F1, with self.DT = Constant(dt) for the global dt passed to
NavierStokesSolver(mesh, dt). -/
def F1form : Expr := buildF1 dt

/-- a2 = dot(nabla_grad(p), nabla_grad(q))*dx. -/
def a2Form : Expr :=
  .integral (.dot (.nabla_grad (.atom pTrial)) (.nabla_grad (.atom qTest))) dx

/-- L2 = dot(nabla_grad(p_k), nabla_grad(q))*dx - (1/DT)*div(u_)*q*dx,
with c the value of the Constant self.DT. -/
def buildL2 (c : ℚ) : Expr :=
  .sub (.integral (.dot (.nabla_grad (.atom p_k)) (.nabla_grad (.atom qTest))) dx)
       (.integral (.mul (.mul (.div (.lit 1) (.lit c)) (.diver (.atom u_)))
          (.atom qTest)) dx)

/-- self.L2 with self.DT = Constant(dt). -/
def L2Form : Expr := buildL2 dt

/-- a3 = dot(u, v)*dx. -/
def a3Form : Expr := .integral (.dot (.atom uTrial) (.atom vTest)) dx

/-- L3 = dot(u_, v)*dx - DT*dot(nabla_grad(p_ - p_k), v)*dx, with c the
value of the Constant self.DT. -/
def buildL3 (c : ℚ) : Expr :=
  .sub (.integral (.dot (.atom u_) (.atom vTest)) dx)
       (.integral (.mul (.lit c)
          (.dot (.nabla_grad (.sub (.atom p_) (.atom p_k))) (.atom vTest))) dx)

/-- self.L3 with self.DT = Constant(dt). -/
def L3Form : Expr := buildL3 dt

/-! ## Dirichlet boundary conditions -/

/-- The two function spaces of the projection solver: the vector velocity
space V and the scalar pressure space Q. -/
inductive SpaceId where
  | V | Q
  deriving DecidableEq, Repr

/-- The four boundary regions named by the class attributes. -/
inductive Region where
  | inflow | outflow | walls | cylinder
  deriving DecidableEq, Repr

/-- The membership test of each region, transcribed from the C string of
the class attribute (near(a, b) is modelled as exact equality): inflow is
near(x[0], 0); outflow is near(x[0], 2.2); walls is near(x[1], 0) or
near(x[1], 0.41); cylinder is on_boundary and 0.1 < x[0] < 0.3 and
0.1 < x[1] < 0.3. -/
def regionTest (r : Region) (p : ℚ × ℚ) (on_boundary : Bool) : Bool :=
  match r with
  | .inflow => p.1 == 0
  | .outflow => p.1 == 11/5
  | .walls => p.2 == 0 || p.2 == 41/100
  | .cylinder => on_boundary && decide ((1:ℚ)/10 < p.1) && decide (p.1 < 3/10)
      && decide ((1:ℚ)/10 < p.2) && decide (p.2 < 3/10)

/-- The boundary-value data of a DirichletBC: a scalar expression or a
two-component vector expression. -/
inductive BCVal where
  | scalar : Expr → BCVal
  | vector : Expr → Expr → BCVal
  deriving DecidableEq, Repr

/-- A DirichletBC(space, value, region) record. -/
structure DirichletBC where
  space : SpaceId
  value : BCVal
  region : Region
  deriving DecidableEq, Repr

/-- The x component of the inflow profile:
4.0*1.5*x[1]*(0.41 - x[1]) / pow(0.41, 2). -/
def inflowProfileX : Expr :=
  .div (.mul (.mul (.mul (.lit 4) (.lit (3/2))) (.atom x1))
             (.sub (.lit (41/100)) (.atom x1)))
       (.pow (.lit (41/100)) (.lit 2))

/-- bcu_inflow = DirichletBC(V, Expression(inflow_profile), inflow). -/
def bcu_inflow : DirichletBC :=
  ⟨.V, .vector inflowProfileX (.lit 0), .inflow⟩

/-- bcu_walls = DirichletBC(V, Constant((0, 0)), walls). -/
def bcu_walls : DirichletBC := ⟨.V, .vector (.lit 0) (.lit 0), .walls⟩

/-- bcu_cylinder = DirichletBC(V, Constant((0, 0)), cylinder). -/
def bcu_cylinder : DirichletBC := ⟨.V, .vector (.lit 0) (.lit 0), .cylinder⟩

/-- bcp_outflow = DirichletBC(Q, Constant(0), outflow). -/
def bcp_outflow : DirichletBC := ⟨.Q, .scalar (.lit 0), .outflow⟩

/-- self.bcu = [bcu_inflow, bcu_walls, bcu_cylinder]. -/
def bcu : List DirichletBC := [bcu_inflow, bcu_walls, bcu_cylinder]

/-- self.bcp = [bcp_outflow]. -/
def bcp : List DirichletBC := [bcp_outflow]

/-! ## Event trace of the projection solver -/

/-- The three assembled system matrices. -/
inductive SysId where
  | A1 | A2 | A3
  deriving DecidableEq, Repr

/-- The three right-hand-side vectors assembled in advance. -/
inductive VecId where
  | b1 | b2 | b3
  deriving DecidableEq, Repr

/-- Krylov solver names passed to solve. -/
inductive SolverKind where
  | bicgstab | cg
  deriving DecidableEq, Repr

/-- Preconditioner names passed to solve. -/
inductive PrecondKind where
  | ilu | sor
  deriving DecidableEq, Repr

/-- What a call to assemble receives: lhs(F1), rhs(F1), or a form given
directly in the source. -/
inductive AssembledForm where
  | lhsOf : Expr → AssembledForm
  | rhsOf : Expr → AssembledForm
  | direct : Expr → AssembledForm
  deriving DecidableEq, Repr

/-- One observable action of the NavierStokesSolver. -/
inductive NSEvent where
  | assembleMat : SysId → AssembledForm → NSEvent
  | assembleVec : VecId → AssembledForm → NSEvent
  | applyBCMat : DirichletBC → SysId → NSEvent
  | applyBCVec : DirichletBC → VecId → NSEvent
  | solveLin : SysId → Atom → VecId → SolverKind → PrecondKind → NSEvent
  | assignField : Atom → Atom → NSEvent
  deriving DecidableEq, Repr

/-- The actions of NavierStokesSolver.__init__ after the boundary
conditions are set up: assemble A1 from lhs(F1) and apply bcu to it,
assemble A2 and apply bcp to it, assemble A3 with no application. -/
def initEvents : List NSEvent :=
  [ .assembleMat .A1 (.lhsOf F1form),
    .applyBCMat bcu_inflow .A1, .applyBCMat bcu_walls .A1, .applyBCMat bcu_cylinder .A1,
    .assembleMat .A2 (.direct a2Form),
    .applyBCMat bcp_outflow .A2,
    .assembleMat .A3 (.direct a3Form) ]

/-- The actions of one call to NavierStokesSolver.advance, in source
order (lines 370-388). -/
def advanceEvents : List NSEvent :=
  [ .assembleVec .b1 (.rhsOf F1form),
    .applyBCVec bcu_inflow .b1, .applyBCVec bcu_walls .b1, .applyBCVec bcu_cylinder .b1,
    .solveLin .A1 .u_ .b1 .bicgstab .ilu,
    .assembleVec .b2 (.direct L2Form),
    .applyBCVec bcp_outflow .b2,
    .solveLin .A2 .p_ .b2 .bicgstab .ilu,
    .assembleVec .b3 (.direct L3Form),
    .solveLin .A3 .u_ .b3 .cg .sor,
    .assignField .u_k .u_,
    .assignField .p_k .p_ ]

/-! ## Output files and the time-stepping loop -/

/-- The three visualization output files. -/
inductive FileId where
  | u_1File | u_2File | u_3File
  deriving DecidableEq, Repr

/-- The File objects created before the loop, with their path strings. -/
def vtkFiles : List (FileId × String) :=
  [ (.u_1File, "reaction_system/u_1.pvd"),
    (.u_2File, "reaction_system/u_2.pvd"),
    (.u_3File, "reaction_system/u_3.pvd") ]

/-- out_interval = num_steps / 100.  In Python this evaluates to the
float 5.0; the division is exact and the test k % out_interval == 0 on
integers below num_steps agrees with the natural-number test modelled
here, so the value is modelled as the natural number 5. -/
def out_interval : ℕ := num_steps / 100

/-- The output guard of line 431: k % out_interval == 0 or
k == num_steps. -/
def outCond (k : ℕ) : Bool :=
  k % out_interval == 0 || k == num_steps

/-- The files written in iteration k: all three (in creation order) when
the guard holds, none otherwise. -/
def outputsAt (k : ℕ) : List FileId :=
  if outCond k then [.u_1File, .u_2File, .u_3File] else []

/-- One observable action of the body of the time-stepping loop. -/
inductive LoopEvent where
  | nsAdvance : LoopEvent                -- nss.advance()
  | copyVelocity : LoopEvent             -- w.assign(nss.u_k)
  | nonlinSolve : Expr → LoopEvent       -- solve(residual == 0, u)
  | writeFile : FileId → LoopEvent       -- vtkfile << (component, t)
  | updatePrev : LoopEvent               -- u_n.assign(u)
  | progressUpdate : LoopEvent           -- progress.update(t / T)
  deriving DecidableEq, Repr

/-- The actions of iteration k of the loop, in source order
(lines 418-444); the residual passed to solve is the global F, which no
statement of the loop rebinds. -/
def iterationEvents (k : ℕ) : List LoopEvent :=
  [.nsAdvance, .copyVelocity, .nonlinSolve F]
    ++ (outputsAt k).map .writeFile
    ++ [.updatePrev, .progressUpdate]

/-- The whole run: the loop index k ranges over range(num_steps). -/
def programTrace : List (ℕ × List LoopEvent) :=
  (List.range num_steps).map (fun k => (k, iterationEvents k))

/-! ## State-passing model of the loop

The discrete fields live in the external library; their values are drawn
from an arbitrary type and the external linear and nonlinear solves are
arbitrary functions of the data they read, so every theorem below holds
for any behaviour of the numerical backend. -/

/-- The four persistent fields of the NavierStokesSolver. -/
structure NSState (α : Type) where
  u_k : α
  u_ : α
  p_k : α
  p_ : α

/-- The external linear solves of the three substeps, as arbitrary
functions of the solver state they may read. -/
structure NSOracle (α : Type) where
  sol1 : NSState α → α
  sol2 : NSState α → α
  sol3 : NSState α → α

/-- NavierStokesSolver.advance as a state transition: step 1 writes u_,
step 2 writes p_, step 3 overwrites u_, then u_k and p_k are assigned
from u_ and p_. -/
def nssAdvance {α : Type} (o : NSOracle α) (s : NSState α) : NSState α :=
  let s1 := { s with u_ := o.sol1 s }
  let s2 := { s1 with p_ := o.sol2 s1 }
  let s3 := { s2 with u_ := o.sol3 s2 }
  { s3 with u_k := s3.u_, p_k := s3.p_ }

/-- The mutable state of the main script: the solver object, the copied
velocity w, the concentrations u and u_n, and the time t. -/
structure SimState (α : Type) where
  nss : NSState α
  w : α
  u : α
  u_n : α
  t : ℚ

/-- The external solvers: the three linear substeps plus the nonlinear
solve, which receives the residual form, the velocity w it references and
the current value of u, and returns the new value of u. -/
structure Oracle (α : Type) extends NSOracle α where
  nlSolve : Expr → α → α → α

/-- Lines 420-426 of the loop body: advance the time, advance the
Navier-Stokes solver, copy its velocity u_k into w. -/
def advancePhase {α : Type} (o : Oracle α) (s : SimState α) : SimState α :=
  let s1 := { s with t := s.t + dt }
  let s2 := { s1 with nss := nssAdvance o.toNSOracle s1.nss }
  { s2 with w := s2.nss.u_k }

/-- Line 429: solve(F == 0, u) writes the solution into u and touches
nothing else. -/
def solvePhase {α : Type} (o : Oracle α) (s : SimState α) : SimState α :=
  { s with u := o.nlSolve F s.w s.u }

/-- Line 441: u_n.assign(u). -/
def updatePhase {α : Type} (s : SimState α) : SimState α :=
  { s with u_n := s.u }

/-- One full iteration of the time-stepping loop. -/
def loopBody {α : Type} (o : Oracle α) (s : SimState α) : SimState α :=
  updatePhase (solvePhase o (advancePhase o s))

/-! ## Name bindings around the loop

Line 263 binds the global name k to a Constant object holding dt; line
273 builds F, capturing that object; line 418 rebinds the name k to the
integer loop index.  The environment records both bindings. -/

/-- A Python value bound to the name k: the integer loop index or the
Constant object (carried as its rational value). -/
inductive PyVal where
  | vInt : ℕ → PyVal
  | vConstObj : ℚ → PyVal
  deriving DecidableEq, Repr

/-- The global bindings relevant to the residual: the name k and the
name F. -/
structure PyEnv where
  kBind : PyVal
  Fbind : Expr
  deriving DecidableEq, Repr

/-- Line 273 evaluates the right-hand side of F in the current
environment; the Constant object bound to k is captured into the form. -/
def bindF (e : PyEnv) : PyEnv :=
  match e.kBind with
  | .vConstObj c => { e with Fbind := buildF c }
  | .vInt n => { e with Fbind := buildF (n : ℚ) }

/-- The environment after lines 263 and 273: k bound to Constant(dt),
then F built from it. -/
def env0 : PyEnv := bindF { kBind := .vConstObj kConstVal, Fbind := .lit 0 }

/-- Entering iteration i of the loop rebinds the name k to the integer
i; no statement of the body rebinds F. -/
def envStep (e : PyEnv) (i : ℕ) : PyEnv := { e with kBind := .vInt i }

/-- The environment in effect inside iteration i. -/
def envAt (i : ℕ) : PyEnv := (List.range (i + 1)).foldl envStep env0

/-! ## Trace queries and claim-side definitions -/

/-- The data of a solve event: system matrix, target field, right-hand
side, solver and preconditioner. -/
def solveData : NSEvent → Option (SysId × Atom × VecId × SolverKind × PrecondKind)
  | .solveLin m t r s pc => some (m, t, r, s, pc)
  | _ => none

/-- Is the event the assembly of the vector b? -/
def isAssembleOf (b : VecId) : NSEvent → Bool
  | .assembleVec c _ => b == c
  | _ => false

/-- Is the event a solve whose right-hand side is b? -/
def isSolveWithRhs (b : VecId) : NSEvent → Bool
  | .solveLin _ _ c _ _ => b == c
  | _ => false

/-- The boundary condition applied to the vector b by the event, if any. -/
def bcOfApply (b : VecId) : NSEvent → Option DirichletBC
  | .applyBCVec bc c => if b == c then some bc else none
  | _ => none

/-- The boundary conditions applied to the vector b between its assembly
and the solve that consumes it, inside one call to advance. -/
def appliedBetween (b : VecId) : List DirichletBC :=
  let i := advanceEvents.findIdx (isAssembleOf b)
  let j := advanceEvents.findIdx (isSolveWithRhs b)
  ((advanceEvents.drop (i + 1)).take (j - i - 1)).filterMap (bcOfApply b)

/-- Which of the three substeps a system matrix belongs to. -/
def stepOfSys : SysId → ℕ
  | .A1 => 1
  | .A2 => 2
  | .A3 => 3

/-- Which of the three substeps a right-hand-side vector belongs to. -/
def stepOfVec : VecId → ℕ
  | .b1 => 1
  | .b2 => 2
  | .b3 => 3

/-- All solver events: the setup in __init__ followed by one advance. -/
def allEventsNS : List NSEvent := initEvents ++ advanceEvents

/-- Every boundary condition applied (to a matrix or a vector) by
substep i anywhere in setup or advance. -/
def bcAppsOfStep (i : ℕ) : List DirichletBC :=
  allEventsNS.filterMap fun e =>
    match e with
    | .applyBCMat bc m => if stepOfSys m == i then some bc else none
    | .applyBCVec bc b => if stepOfVec b == i then some bc else none
    | _ => none

/-- Evaluate a scalar expression at the point p, with x[0] and x[1] the
coordinates; non-scalar constructors evaluate to 0. -/
def evalS (p : ℚ × ℚ) : Expr → ℚ
  | .atom a => if a == x0 then p.1 else if a == x1 then p.2 else 0
  | .lit q => q
  | .vecLit _ _ => 0
  | .ident _ => 0
  | .add a b => evalS p a + evalS p b
  | .sub a b => evalS p a - evalS p b
  | .mul a b => evalS p a * evalS p b
  | .div a b => evalS p a / evalS p b
  | .neg a => - evalS p a
  | .pow a b => evalS p a ^ (evalS p b).num.toNat
  | .condLt a b t e => if evalS p a < evalS p b then evalS p t else evalS p e
  | .dot _ _ => 0
  | .inner _ _ => 0
  | .grad _ => 0
  | .nabla_grad _ => 0
  | .diver _ => 0
  | .sym _ => 0
  | .integral _ _ => 0

/-- Modelled from the claim wording: the parabolic inflow profile
4.0*1.5*x[1]*(0.41 - x[1])/0.41^2 as a rational function of the wall
coordinate. -/
def inflowProfileSpec (y : ℚ) : ℚ :=
  4 * (3/2) * y * (41/100 - y) / (41/100)^2

/-- Modelled from the claim wording: the three backward-Euler terms of
one concentration equation (time difference over dt, advection by w,
diffusion with eps), tested against its own test function. -/
def bweTerms (ui uni vi : Atom) : List Expr :=
  [ .integral (.mul (.div (.sub (.atom ui) (.atom uni)) (.lit dt)) (.atom vi)) dx,
    .integral (.mul (.dot (.atom w) (.grad (.atom ui))) (.atom vi)) dx,
    .integral (.mul (.lit epsVal) (.dot (.grad (.atom ui)) (.grad (.atom vi)))) dx ]

/-- Modelled from the claim wording: the bimolecular reaction K*u_1*u_2
tested against the test function vi. -/
def reactAgainst (vi : Atom) : Expr :=
  .integral (.mul (.mul (.mul (.lit KVal) (.atom u_1)) (.atom u_2)) (.atom vi)) dx

/-- Modelled from the claim wording: the decay term K*u_3 tested against
v_3. -/
def decayTerm : Expr :=
  .integral (.mul (.mul (.lit KVal) (.atom u_3)) (.atom v_3)) dx

/-- A source term fe tested against vi. -/
def srcTerm (fe : Expr) (vi : Atom) : Expr := .integral (.mul fe (.atom vi)) dx

/-- How many of the three concentration unknowns occur in the term. -/
def concCount (t : Expr) : ℕ :=
  (if occursA u_1 t then 1 else 0) + (if occursA u_2 t then 1 else 0)
    + (if occursA u_3 t then 1 else 0)

/-- Is the event a nonlinear solve? -/
def isNonlinSolve : LoopEvent → Bool
  | .nonlinSolve _ => true
  | _ => false

/-! ## Helper lemmas -/

/-- Unfolding the environment iteration once. -/
theorem envAt_succ (i : ℕ) : envAt (i + 1) = envStep (envAt i) (i + 1) := by
  simp [envAt, List.range_succ, List.foldl_append]

/-- The loop never rebinds F, and iteration i sees k bound to the
integer i. -/
theorem envAt_spec (i : ℕ) :
    (envAt i).Fbind = env0.Fbind ∧ (envAt i).kBind = .vInt i := by
  induction i with
  | zero => exact ⟨rfl, rfl⟩
  | succ n ih =>
      rw [envAt_succ]
      exact ⟨ih.1, rfl⟩

/-! ## The claims -/

/-- C1: every call to NavierStokesSolver.advance performs exactly three
linear solves, in order: (1) the tentative velocity system A1 into u_
with bicgstab and ilu, (2) the pressure system A2 into p_ with bicgstab
and ilu, sourced by the divergence of the tentative velocity u_ computed
by the first solve, and (3) the velocity correction A3 into u_ with cg
and sor, whose right-hand side subtracts the gradient of the pressure
increment. -/
theorem C1_three_linear_substeps :
    advanceEvents.filterMap solveData =
      [ (SysId.A1, Atom.u_, VecId.b1, SolverKind.bicgstab, PrecondKind.ilu),
        (SysId.A2, Atom.p_, VecId.b2, SolverKind.bicgstab, PrecondKind.ilu),
        (SysId.A3, Atom.u_, VecId.b3, SolverKind.cg, PrecondKind.sor) ]
    ∧ advanceEvents.findIdx (isSolveWithRhs .b1)
        < advanceEvents.findIdx (isAssembleOf .b2)
    ∧ advanceEvents.findIdx (isSolveWithRhs .b2)
        < advanceEvents.findIdx (isAssembleOf .b3)
    ∧ (flat L2Form).get? 1 = some (.neg (.integral
        (.mul (.mul (.div (.lit 1) (.lit dt)) (.diver (.atom u_)))
          (.atom qTest)) dx))
    ∧ (flat L3Form).get? 1 = some (.neg (.integral
        (.mul (.lit dt)
          (.dot (.nabla_grad (.sub (.atom p_) (.atom p_k))) (.atom vTest))) dx)) :=
  ⟨rfl, by decide, by decide, rfl, rfl⟩

/-- C2 counterexample: substep 3 is solved against the vector b3, yet no
boundary condition is ever applied to b3 inside advance, refuting the
claim that each of the three substeps applies its Dirichlet data to its
system before its solve call. -/
theorem C2_step3_applies_no_bc :
    (advanceEvents.filter (isSolveWithRhs VecId.b3)).length = 1
    ∧ advanceEvents.filterMap (bcOfApply VecId.b3) = [] :=
  ⟨rfl, rfl⟩

/-- C2 amended: in every call to advance, substeps 1 and 2 assemble their
right-hand sides and apply exactly their Dirichlet data (bcu for step 1,
bcp for step 2) to them before their solve calls; substep 3 assembles b3
and solves with no boundary-condition application at all, in advance or
in setup. -/
theorem C2_bc_before_solve :
    appliedBetween .b1 = bcu ∧ appliedBetween .b2 = bcp
    ∧ appliedBetween .b3 = []
    ∧ advanceEvents.findIdx (isAssembleOf .b1)
        < advanceEvents.findIdx (isSolveWithRhs .b1)
    ∧ advanceEvents.findIdx (isAssembleOf .b2)
        < advanceEvents.findIdx (isSolveWithRhs .b2)
    ∧ advanceEvents.findIdx (isAssembleOf .b3)
        < advanceEvents.findIdx (isSolveWithRhs .b3)
    ∧ bcAppsOfStep 3 = [] :=
  ⟨rfl, rfl, rfl, by decide, by decide, by decide, rfl⟩

/-- C3: the flattened residual F is exactly the backward-Euler terms
(time difference over the captured dt, advection by w, diffusion with
eps) of the three concentrations, each tested against its own test
function, interleaved with the reaction terms +K*u_1*u_2 against v_1 and
v_2, -K*u_1*u_2 + K*u_3 against v_3, minus the three source terms; and
every non-reaction term mentions at most one concentration unknown, so
the equations couple only through the bimolecular reaction. -/
theorem C3_reaction_residual :
    flat F =
      bweTerms u_1 u_n1 v_1 ++ [reactAgainst v_1]
      ++ bweTerms u_2 u_n2 v_2 ++ [reactAgainst v_2]
      ++ bweTerms u_3 u_n3 v_3
      ++ [.neg (reactAgainst v_3), decayTerm]
      ++ [.neg (srcTerm f_1Expr v_1), .neg (srcTerm f_2Expr v_2),
          .neg (srcTerm f_3Expr v_3)]
    ∧ ((flat F).all fun t =>
        [reactAgainst v_1, reactAgainst v_2,
          Expr.neg (reactAgainst v_3)].contains t || concCount t ≤ 1) = true := by
  constructor
  · unfold F buildF bweTerms reactAgainst decayTerm srcTerm
    rfl
  · rfl

/-- C4: in F1 the convective term is dot(dot(u_k, nabla_grad(u_k)), v)
with the previous velocity u_k in both slots and no occurrence of the
trial velocity, the stress term applies sigma to the Crank-Nicolson
average u_mid = 0.5*(u_k + u) of the previous and the unknown velocity,
and the whole form has degree 1 in the trial velocity, hence is linear
in the unknown. -/
theorem C4_tentative_velocity_form :
    (flat F1form).get? 1 = some (.integral (.mul (.lit rhoVal)
        (.dot (.dot (.atom u_k) (.nabla_grad (.atom u_k))) (.atom vTest))) dx)
    ∧ occursA uTrial (.dot (.dot (.atom u_k) (.nabla_grad (.atom u_k)))
        (.atom vTest)) = false
    ∧ (flat F1form).get? 2 = some (.integral
        (.inner (sigmaFn u_midE (.atom p_k)) (epsilonFn (.atom vTest))) dx)
    ∧ u_midE = .mul (.lit (1/2)) (.add (.atom u_k) (.atom uTrial))
    ∧ degIn uTrial F1form = 1 :=
  ⟨rfl, rfl, rfl, rfl, rfl⟩

/-- C5: for every behaviour of the external solvers, the loop body
copies the advanced velocity u_k into w before the concentration solve,
the concentration solve writes only u (all four Navier-Stokes fields,
w, u_n and t are unchanged by it), and after a full iteration the solver
state is exactly what advance produced, untouched by the nonlinear
solve. -/
theorem C5_one_way_coupling :
    ∀ (α : Type) (o : Oracle α) (s : SimState α),
      (solvePhase o s).nss = s.nss
      ∧ (solvePhase o s).w = s.w
      ∧ (solvePhase o s).u_n = s.u_n
      ∧ (solvePhase o s).t = s.t
      ∧ (advancePhase o s).w = (nssAdvance o.toNSOracle s.nss).u_k
      ∧ (loopBody o s).u = o.nlSolve F (nssAdvance o.toNSOracle s.nss).u_k s.u
      ∧ (loopBody o s).nss = nssAdvance o.toNSOracle s.nss :=
  fun _ _ _ => ⟨rfl, rfl, rfl, rfl, rfl, rfl, rfl⟩

/-- C6: the loop runs exactly num_steps = 500 iterations over the
indices of range(num_steps), and every iteration advances the projection
solver exactly once and performs exactly one nonlinear solve, in the
fixed order advance, velocity copy, nonlinear solve, previous-solution
update. -/
theorem C6_loop_structure :
    programTrace.length = num_steps
    ∧ programTrace.map Prod.fst = List.range num_steps
    ∧ num_steps = 500
    ∧ ∀ k : ℕ,
        (iterationEvents k).count .nsAdvance = 1
        ∧ (iterationEvents k).countP isNonlinSolve = 1
        ∧ (iterationEvents k).count .copyVelocity = 1
        ∧ (iterationEvents k).count .updatePrev = 1
        ∧ (iterationEvents k).findIdx (fun e => e == .nsAdvance) = 0
        ∧ (iterationEvents k).findIdx (fun e => e == .copyVelocity) = 1
        ∧ (iterationEvents k).findIdx isNonlinSolve = 2
        ∧ 2 < (iterationEvents k).findIdx (fun e => e == .updatePrev) := by
  refine ⟨by simp [programTrace], by simp [programTrace, List.map_map, Function.comp_def],
    rfl, ?_⟩
  intro k
  cases h : outCond k <;> simp [iterationEvents, outputsAt, h] <;> decide

/-- C7: the Dirichlet data of the projection solver is exactly the
parabolic profile 4.0*1.5*x[1]*(0.41 - x[1])/0.41^2 in x and 0 in y on
the inflow x[0] = 0, zero velocity on the walls and the cylinder
boundary, and zero pressure on the outflow x[0] = 2.2; the applications
performed by the velocity substeps draw exactly from bcu (step 1 applies
it to A1 and to b1, step 3 applies nothing) and those of the pressure
substep exactly from bcp. -/
theorem C7_dirichlet_data :
    bcu = [ ⟨.V, .vector inflowProfileX (.lit 0), .inflow⟩,
            ⟨.V, .vector (.lit 0) (.lit 0), .walls⟩,
            ⟨.V, .vector (.lit 0) (.lit 0), .cylinder⟩ ]
    ∧ bcp = [ ⟨.Q, .scalar (.lit 0), .outflow⟩ ]
    ∧ (∀ x y : ℚ, evalS (x, y) inflowProfileX = inflowProfileSpec y)
    ∧ (∀ (p : ℚ × ℚ) (ob : Bool),
        (regionTest .inflow p ob = true ↔ p.1 = 0)
        ∧ (regionTest .outflow p ob = true ↔ p.1 = 11/5)
        ∧ (regionTest .walls p ob = true ↔ (p.2 = 0 ∨ p.2 = 41/100))
        ∧ (regionTest .cylinder p ob = true ↔
            (ob = true ∧ 1/10 < p.1 ∧ p.1 < 3/10 ∧ 1/10 < p.2 ∧ p.2 < 3/10)))
    ∧ bcAppsOfStep 1 = bcu ++ bcu
    ∧ bcAppsOfStep 2 = bcp ++ bcp
    ∧ bcAppsOfStep 3 = [] := by
  refine ⟨rfl, rfl, ?_, ?_, rfl, rfl, rfl⟩
  · intro x y
    simp [evalS, inflowProfileX, inflowProfileSpec]
  · intro p ob
    simp [regionTest, and_assoc]

/-- C8: exactly three visualization files are created, one per
concentration component; in every iteration either all three receive a
sample or none does; and over the actual iteration range the sampling
happens exactly at multiples of out_interval = num_steps / 100 = 5. -/
theorem C8_output_files :
    vtkFiles.map Prod.fst = [.u_1File, .u_2File, .u_3File]
    ∧ vtkFiles.map Prod.snd =
        ["reaction_system/u_1.pvd", "reaction_system/u_2.pvd",
         "reaction_system/u_3.pvd"]
    ∧ (∀ k : ℕ, outputsAt k = [.u_1File, .u_2File, .u_3File] ∨ outputsAt k = [])
    ∧ out_interval = num_steps / 100
    ∧ out_interval = 5
    ∧ ((List.range num_steps).all fun k =>
        decide (outputsAt k ≠ []) == decide (k % out_interval = 0)) = true := by
  refine ⟨rfl, rfl, ?_, rfl, rfl, ?_⟩
  · intro k
    cases h : outCond k
    · right; simp [outputsAt, h]
    · left; simp [outputsAt, h]
  · set_option maxRecDepth 4000 in decide

/-- C9: the time-step constant is dt = T/num_steps in both solvers and
is never adjusted: F retains the captured Constant dt in every iteration
even though the name k is rebound to the integer loop index, the three
Navier-Stokes forms carry the same constant dt, and the residual passed
to the nonlinear solve in every iteration is exactly F built with dt. -/
theorem C9_fixed_dt :
    dt = Tval / (num_steps : ℚ)
    ∧ env0.Fbind = buildF dt
    ∧ (∀ i : ℕ, (envAt i).Fbind = buildF dt ∧ (envAt i).kBind = .vInt i)
    ∧ F1form = buildF1 dt ∧ L2Form = buildL2 dt ∧ L3Form = buildL3 dt
    ∧ (∀ k : ℕ, LoopEvent.nonlinSolve (buildF dt) ∈ iterationEvents k) := by
  refine ⟨rfl, rfl, ?_, rfl, rfl, rfl, ?_⟩
  · intro i
    exact ⟨(envAt_spec i).1, (envAt_spec i).2⟩
  · intro k
    simp [iterationEvents, F, kConstVal]

/-- C10: every loop index is below num_steps, so the disjunct
k == num_steps of the output guard never fires and the guard agrees with
the plain multiple-of-out_interval test on all 500 iterations; the last
iteration that writes output is k = 495 and the final iteration k = 499
writes none (the disjunct would only fire at k = 500, which is never
reached). -/
theorem C10_last_sample :
    ((List.range num_steps).all fun k => decide (k < num_steps)) = true
    ∧ ((List.range num_steps).all fun k =>
        outCond k == (k % out_interval == 0)) = true
    ∧ ((List.range num_steps).filter outCond).getLast? = some 495
    ∧ outCond 499 = false ∧ (499 ∈ List.range num_steps)
    ∧ outCond 500 = true
    ∧ num_steps = 500 ∧ out_interval = 5 := by
  set_option maxRecDepth 4000 in decide

end ADR
